import Mathlib

/-!
# Verification of the datashader front-end core (`datashader/core.py`)

Shallow embedding of the coordinate-transform layer (`Axis`,
`LinearAxis`, `LogAxis`), the `Canvas` configuration object and the
rendering orchestrator `bypixel`.

Modelling conventions:

* Python numbers are embedded as elements of a field `α` (`ℚ` for
  executable instances, `ℝ` where the base-10 logarithm is needed).
  The floating-point rounding of the original is abstracted away, so the
  spec's "approximately" becomes exact equality in the model.
* Python scalar division `a / b` raises `ZeroDivisionError` when `b == 0`
  (the operands reaching it in `scale_and_translation` are Python
  scalars); it is embedded as `pydiv`, returning `Option`.
* The numpy array division in `compute_index` (`(px - t)/s` with `px` an
  `ndarray`) does not raise; it is embedded as total field division.
  Its value at a zero divisor is irrelevant to every claim below.
* Exceptions escaping a function are embedded as `Option`/`Except`
  results: `none`/`Except.error` is a raised error, `some`/`Except.ok`
  a normal return.
-/

/-- The variant kind of a concrete `Axis` subclass.  Python identifies an
axis policy by its concrete type (`LinearAxis` or `LogAxis`); the model
identifies it by this tag. -/
inductive AxisKind : Type where
  | linear : AxisKind
  | log : AxisKind
deriving DecidableEq

/-- `Axis.__eq__`: `type(self) == type(other)` — equality of the variant
tags, no other state participates. -/
def AxisKind.eq (self other : AxisKind) : Bool :=
  decide (self = other)

/-- `Axis.__ne__`: `not self == other`. -/
def AxisKind.ne (self other : AxisKind) : Bool :=
  ! (AxisKind.eq self other)

/-- `Axis.__hash__`: `hash(type(self))` — a value determined solely by
the variant's type.  The concrete numbers stand for Python's
per-type hash values. -/
def AxisKind.hash : AxisKind → ℕ
  | AxisKind.linear => 0
  | AxisKind.log => 1

/-- The method suite a concrete `Axis` subclass supplies to the base
class: the forward transform `mapper` and its inverse `inverse_mapper`. -/
structure Axis (α : Type) : Type where
  mapper : α → α
  inverse_mapper : α → α

/-- Python scalar division: `a / b` raises `ZeroDivisionError` when
`b == 0`, otherwise returns the quotient. -/
def pydiv {α : Type} [Field α] [DecidableEq α] (a b : α) : Option α :=
  if b = 0 then none else some (a / b)

/-- `Axis.scale_and_translation(self, range, n)`:
`start, end = map(self.mapper, range)`; `s = (n - 1)/(end - start)`;
`t = -start * s`; `return s, t`.  The division is Python scalar
division, so a zero-width mapped range raises (`none`). -/
def Axis.scale_and_translation {α : Type} [Field α] [DecidableEq α]
    (self : Axis α) (range : α × α) (n : ℕ) : Option (α × α) :=
  let start := self.mapper range.1
  let stop := self.mapper range.2
  match pydiv ((n : α) - 1) (stop - start) with
  | none => none
  | some s => some (s, -start * s)

/-- `Axis.compute_index(self, n, st)`: `px = np.arange(n)`; `s, t = st`;
`return self.inverse_mapper((px - t)/s)`.  The arithmetic is elementwise
over the array `px = [0, 1, ..., n-1]`; numpy array division does not
raise, so total field division is used. -/
def Axis.compute_index {α : Type} [Field α]
    (self : Axis α) (n : ℕ) (st : α × α) : List α :=
  let s := st.1
  let t := st.2
  (List.range n).map (fun px : ℕ => self.inverse_mapper (((px : α) - t) / s))

/-- `LinearAxis.mapper(x) = x`. -/
def LinearAxis.mapper {α : Type} (x : α) : α := x

/-- `LinearAxis.inverse_mapper = mapper` (the same function object). -/
def LinearAxis.inverse_mapper {α : Type} : α → α := LinearAxis.mapper

/-- The method suite of a `LinearAxis` instance. -/
def LinearAxis.ops (α : Type) : Axis α :=
  { mapper := LinearAxis.mapper, inverse_mapper := LinearAxis.inverse_mapper }

/-- `LogAxis.mapper(x) = np.log10(x)`. -/
noncomputable def LogAxis.mapper (x : ℝ) : ℝ := Real.logb 10 x

/-- `LogAxis.inverse_mapper(x) = 10**x` (real exponentiation). -/
noncomputable def LogAxis.inverse_mapper (x : ℝ) : ℝ := (10 : ℝ) ^ x

/-- The method suite of a `LogAxis` instance. -/
noncomputable def LogAxis.ops : Axis ℝ :=
  { mapper := LogAxis.mapper, inverse_mapper := LogAxis.inverse_mapper }

/-- `_axis_lookup = {'linear': LinearAxis(), 'log': LogAxis()}`; a dict
lookup on a missing key raises `KeyError` (`none`). -/
def axis_lookup (name : String) : Option AxisKind :=
  if name = "linear" then some AxisKind.linear
  else if name = "log" then some AxisKind.log
  else none

/-- The `Canvas` configuration record.  Ranges are stored as optional
pairs (`tuple(x_range) if x_range else x_range` — a pass-through in the
model, where a present range is already a pair). -/
structure Canvas : Type where
  plot_width : ℤ
  plot_height : ℤ
  x_range : Option (ℚ × ℚ)
  y_range : Option (ℚ × ℚ)
  x_axis : AxisKind
  y_axis : AxisKind
deriving DecidableEq

/-- `Canvas.__init__`: stores the sizes and ranges, then resolves
`x_axis = _axis_lookup[x_axis_type]` and
`y_axis = _axis_lookup[y_axis_type]`; an unrecognized name raises
`KeyError` (`none`). -/
def Canvas.init (plot_width plot_height : ℤ)
    (x_range y_range : Option (ℚ × ℚ))
    (x_axis_type y_axis_type : String) : Option Canvas :=
  match axis_lookup x_axis_type with
  | none => none
  | some xa =>
    match axis_lookup y_axis_type with
    | none => none
    | some ya =>
      some { plot_width := plot_width, plot_height := plot_height,
             x_range := x_range, y_range := y_range,
             x_axis := xa, y_axis := ya }

/-- An exception escaping `bypixel`: either the `ValueError` it raises
itself, or an error propagated from `glyph.validate`/`summary.validate`. -/
inductive PyErr (E : Type) : Type where
  | valueError (msg : String) : PyErr E
  | validationError (e : E) : PyErr E
deriving DecidableEq

/-- A glyph: an external capability exposing `validate(schema)`, which
raises (`Except.error`) when the schema lacks what the glyph requires. -/
structure Glyph (Schema E : Type) : Type where
  validate : Schema → Except E Unit

/-- A summary / aggregation spec: same `validate` contract as `Glyph`. -/
structure Summary (Schema E : Type) : Type where
  validate : Schema → Except E Unit

/-- `bypixel(source, canvas, glyph, summary)`:
`dshape = discover(source)`; `if not istabular(dshape): raise
ValueError("source must be tabular")`; `schema = dshape.measure`;
`glyph.validate(schema)`; `summary.validate(schema)`;
`return pipeline(source, schema, canvas, glyph, summary)`.
The external collaborators — `discover`, `istabular`, the `.measure`
accessor and the `pipeline` dispatcher — are passed in as functions. -/
def bypixel {Source DShape Schema E R : Type}
    (discover : Source → DShape) (istabular : DShape → Bool)
    (measure : DShape → Schema)
    (pipeline : Source → Schema → Canvas → Glyph Schema E → Summary Schema E → R)
    (source : Source) (canvas : Canvas)
    (glyph : Glyph Schema E) (summary : Summary Schema E) :
    Except (PyErr E) R :=
  let dshape := discover source
  if ! istabular dshape then
    Except.error (PyErr.valueError ("source must be tabular"))
  else
    let schema := measure dshape
    match glyph.validate schema with
    | Except.error e => Except.error (PyErr.validationError e)
    | Except.ok _ =>
      match summary.validate schema with
      | Except.error e => Except.error (PyErr.validationError e)
      | Except.ok _ => Except.ok (pipeline source schema canvas glyph summary)

/-! ### Concrete test fixtures

Small concrete instantiations of the external collaborators of
`bypixel`, used to evaluate the theorems below on closed inputs. -/

/-- A trivial schema-inference collaborator over a one-point source type. -/
def discoverU : Unit → Unit := fun _ => ()

/-- A tabular-shape predicate that accepts everything. -/
def istabularTrue : Unit → Bool := fun _ => true

/-- A tabular-shape predicate that rejects everything. -/
def istabularFalse : Unit → Bool := fun _ => false

/-- A trivial `.measure` accessor. -/
def measureU : Unit → Unit := fun _ => ()

/-- A concrete default `Canvas`. -/
def unitCanvas : Canvas :=
  { plot_width := 600, plot_height := 600, x_range := none, y_range := none,
    x_axis := AxisKind.linear, y_axis := AxisKind.linear }

/-- A glyph whose validation always succeeds. -/
def okGlyph : Glyph Unit String := { validate := fun _ => Except.ok () }

/-- A glyph whose validation always fails with a schema-mismatch error. -/
def badGlyph : Glyph Unit String :=
  { validate := fun _ => Except.error ("glyph requires column x") }

/-- A summary whose validation always succeeds. -/
def okSummary : Summary Unit String := { validate := fun _ => Except.ok () }

/-- A backend pipeline returning a recognizable constant. -/
def constPipeline : Unit → Unit → Canvas → Glyph Unit String → Summary Unit String → ℕ :=
  fun _ _ _ _ _ => 7

/-! ## Theorems -/

/-- C8: two `Axis` instances compare equal iff they are the same variant
(the same concrete type), irrespective of identity; different variants
are never equal, and `__ne__` is exactly the negation of `__eq__`. -/
theorem axis_eq_variant (a b : AxisKind) :
    (AxisKind.eq a b = true ↔ a = b) ∧
    AxisKind.ne a b = ! AxisKind.eq a b := by
  exact ⟨by simp [AxisKind.eq], rfl⟩

/-- C10: equal axes have equal hashes — the hash of an `Axis` instance
is determined solely by its variant. -/
theorem axis_hash_of_eq (a b : AxisKind) (h : AxisKind.eq a b = true) :
    AxisKind.hash a = AxisKind.hash b := by
  have hab : a = b := by simpa [AxisKind.eq] using h
  rw [hab]

theorem axis_hash_of_eq_witness :
    AxisKind.eq AxisKind.log AxisKind.log = true ∧
    AxisKind.hash AxisKind.log = AxisKind.hash AxisKind.log :=
  ⟨by decide, axis_hash_of_eq AxisKind.log AxisKind.log (by decide)⟩

/-- C9: `LinearAxis.mapper` and `LinearAxis.inverse_mapper` are both
the exact identity; `LogAxis.mapper` is the base-10 logarithm and
`inverse_mapper` inverts it on every positive input (exactly, in the
real-number model). -/
theorem axis_mapper_inverse :
    (∀ (α : Type) (x : α), LinearAxis.mapper x = x ∧ LinearAxis.inverse_mapper x = x) ∧
    (∀ x : ℝ, LogAxis.mapper x = Real.logb 10 x) ∧
    (∀ x : ℝ, 0 < x → LogAxis.inverse_mapper (LogAxis.mapper x) = x) := by
  refine ⟨fun α x => ⟨rfl, rfl⟩, fun x => rfl, fun x hx => ?_⟩
  unfold LogAxis.inverse_mapper LogAxis.mapper
  exact Real.rpow_logb (by norm_num) (by norm_num) hx

theorem axis_mapper_inverse_witness :
    (LinearAxis.mapper (5 : ℚ) = 5 ∧ LinearAxis.inverse_mapper (5 : ℚ) = 5) ∧
    ((0 : ℝ) < 100 ∧ LogAxis.inverse_mapper (LogAxis.mapper 100) = 100) :=
  ⟨axis_mapper_inverse.1 ℚ 5, by norm_num, axis_mapper_inverse.2.2 100 (by norm_num)⟩

/-- C2: on a zero-width mapped range (`mapper(end) == mapper(start)`),
`scale_and_translation` surfaces an error to the caller (Python scalar
division by zero raises `ZeroDivisionError`), for every axis policy and
every pixel count; no pair with an infinite or NaN scale is returned. -/
theorem scale_and_translation_degenerate_raises {α : Type} [Field α] [DecidableEq α]
    (A : Axis α) (range : α × α) (n : ℕ)
    (h : A.mapper range.2 = A.mapper range.1) :
    A.scale_and_translation range n = none := by
  simp [Axis.scale_and_translation, pydiv, h]

theorem scale_and_translation_degenerate_raises_witness :
    (LinearAxis.ops ℚ).mapper (3, 3).2 = (LinearAxis.ops ℚ).mapper (3, 3).1 ∧
    (LinearAxis.ops ℚ).scale_and_translation (3, 3) 5 = none :=
  ⟨rfl, scale_and_translation_degenerate_raises (LinearAxis.ops ℚ) (3, 3) 5 rfl⟩

/-- C3: on a non-degenerate range, `scale_and_translation` returns
exactly the pair `(s, t)` with `s = (n - 1) / (mapper(end) - mapper(start))`
and `t = -mapper(start) * s`, for every axis policy and pixel count. -/
theorem scale_and_translation_formula {α : Type} [Field α] [DecidableEq α]
    (A : Axis α) (range : α × α) (n : ℕ)
    (h : A.mapper range.2 ≠ A.mapper range.1) :
    A.scale_and_translation range n =
      some (((n : α) - 1) / (A.mapper range.2 - A.mapper range.1),
        -A.mapper range.1 * (((n : α) - 1) / (A.mapper range.2 - A.mapper range.1))) := by
  have hd : A.mapper range.2 - A.mapper range.1 ≠ 0 := sub_ne_zero.mpr h
  simp [Axis.scale_and_translation, pydiv, hd]

theorem scale_and_translation_formula_witness :
    (LinearAxis.ops ℚ).mapper (0, 9).2 ≠ (LinearAxis.ops ℚ).mapper (0, 9).1 ∧
    (LinearAxis.ops ℚ).scale_and_translation (0, 9) 10 =
      some ((((10 : ℕ) : ℚ) - 1) / ((LinearAxis.ops ℚ).mapper (0, 9).2 - (LinearAxis.ops ℚ).mapper (0, 9).1),
        -(LinearAxis.ops ℚ).mapper (0, 9).1 *
          ((((10 : ℕ) : ℚ) - 1) / ((LinearAxis.ops ℚ).mapper (0, 9).2 - (LinearAxis.ops ℚ).mapper (0, 9).1))) :=
  ⟨by decide, scale_and_translation_formula (LinearAxis.ops ℚ) (0, 9) 10 (by decide)⟩

/-- C4: `compute_index(n, (s, t))` returns the ordered sequence of
exactly `n` values whose element at each pixel index `px < n` is
`inverse_mapper((px - t)/s)`, for every axis policy. -/
theorem compute_index_values {α : Type} [Field α]
    (A : Axis α) (n : ℕ) (s t : α) (hn : 1 ≤ n) (hs : s ≠ 0) :
    (A.compute_index n (s, t)).length = n ∧
    ∀ px : ℕ, px < n →
      (A.compute_index n (s, t))[px]? = some (A.inverse_mapper (((px : α) - t) / s)) := by
  constructor
  · simp only [Axis.compute_index]
    rw [List.length_map, List.length_range]
  · intro px hpx
    simp only [Axis.compute_index]
    rw [List.getElem?_map, List.getElem?_range hpx]
    rfl

theorem compute_index_values_witness :
    ((LinearAxis.ops ℚ).compute_index 3 (1, 0)).length = 3 ∧
    ((LinearAxis.ops ℚ).compute_index 3 (1, 0))[2]? =
      some ((LinearAxis.ops ℚ).inverse_mapper ((((2 : ℕ) : ℚ) - 0) / 1)) :=
  ⟨(compute_index_values (LinearAxis.ops ℚ) 3 1 0 (by decide) (by decide)).1,
   (compute_index_values (LinearAxis.ops ℚ) 3 1 0 (by decide) (by decide)).2 2 (by decide)⟩

/-- C7: constructing a `Canvas` with an axis-type name outside
`{'linear', 'log'}` (as `x_axis_type` or as `y_axis_type`) raises a
`KeyError`; a recognized name succeeds and binds the corresponding
policy. -/
theorem canvas_init_axis_policy (pw ph : ℤ) (xr yr : Option (ℚ × ℚ))
    (s : String) (hs : s ≠ "linear" ∧ s ≠ "log") :
    Canvas.init pw ph xr yr s "linear" = none ∧
    Canvas.init pw ph xr yr "linear" s = none ∧
    Canvas.init pw ph xr yr "linear" "log" =
      some { plot_width := pw, plot_height := ph, x_range := xr, y_range := yr,
             x_axis := AxisKind.linear, y_axis := AxisKind.log } ∧
    Canvas.init pw ph xr yr "log" "linear" =
      some { plot_width := pw, plot_height := ph, x_range := xr, y_range := yr,
             x_axis := AxisKind.log, y_axis := AxisKind.linear } := by
  refine ⟨?_, ?_, rfl, rfl⟩ <;> simp [Canvas.init, axis_lookup, hs.1, hs.2]

theorem canvas_init_axis_policy_witness :
    ("bogus" ≠ "linear" ∧ "bogus" ≠ "log") ∧
    (Canvas.init 600 600 none none "bogus" "linear" = none ∧
     Canvas.init 600 600 none none "linear" "bogus" = none ∧
     Canvas.init 600 600 none none "linear" "log" =
       some { plot_width := 600, plot_height := 600, x_range := none, y_range := none,
              x_axis := AxisKind.linear, y_axis := AxisKind.log } ∧
     Canvas.init 600 600 none none "log" "linear" =
       some { plot_width := 600, plot_height := 600, x_range := none, y_range := none,
              x_axis := AxisKind.log, y_axis := AxisKind.linear }) :=
  ⟨⟨by decide, by decide⟩,
   canvas_init_axis_policy 600 600 none none "bogus" ⟨by decide, by decide⟩⟩

/-- Element access into `compute_index`: the value at pixel `px < n`. -/
theorem compute_index_getElem {α : Type} [Field α] (A : Axis α) (n : ℕ) (s t : α)
    {px : ℕ} (hpx : px < n) :
    (A.compute_index n (s, t))[px]? = some (A.inverse_mapper (((px : α) - t) / s)) := by
  simp only [Axis.compute_index]
  rw [List.getElem?_map, List.getElem?_range hpx]
  rfl

/-- Generic round-trip lemma: for any axis whose `inverse_mapper` inverts
`mapper` at the two endpoints, composing `compute_index` with
`scale_and_translation` recovers `start` at pixel `0` and `end` at pixel
`n - 1`. -/
theorem roundtrip_of_inverse {α : Type} [Field α] [DecidableEq α] [CharZero α]
    (A : Axis α) (n : ℕ) (a b : α) (hn : 2 ≤ n)
    (hne : A.mapper b ≠ A.mapper a)
    (ha : A.inverse_mapper (A.mapper a) = a)
    (hb : A.inverse_mapper (A.mapper b) = b) :
    (A.scale_and_translation (a, b) n).map
        (fun st => ((A.compute_index n st)[0]?, (A.compute_index n st)[n - 1]?)) =
      some (some a, some b) := by
  have hd : A.mapper b - A.mapper a ≠ 0 := sub_ne_zero.mpr hne
  have hn1 : ((n : α) - 1) ≠ 0 := by
    intro h
    have h1 : (n : α) = 1 := by
      have := sub_eq_zero.mp h
      simpa using this
    have h2 : n = 1 := by exact_mod_cast h1
    omega
  have hst : A.scale_and_translation (a, b) n =
      some (((n : α) - 1) / (A.mapper b - A.mapper a),
        -A.mapper a * (((n : α) - 1) / (A.mapper b - A.mapper a))) := by
    simp [Axis.scale_and_translation, pydiv, hd]
  have h0 : (0 : ℕ) < n := by omega
  have hlast : n - 1 < n := by omega
  rw [hst, Option.map_some']
  have e1 : (((0 : ℕ) : α) - -A.mapper a * (((n : α) - 1) / (A.mapper b - A.mapper a))) /
      (((n : α) - 1) / (A.mapper b - A.mapper a)) = A.mapper a := by
    field_simp
  have ecast : (((n - 1 : ℕ)) : α) = (n : α) - 1 := by
    have h1n : (1 : ℕ) ≤ n := by omega
    push_cast [h1n]
    ring
  have e2 : ((((n - 1 : ℕ)) : α) - -A.mapper a * (((n : α) - 1) / (A.mapper b - A.mapper a))) /
      (((n : α) - 1) / (A.mapper b - A.mapper a)) = A.mapper b := by
    rw [ecast]
    field_simp
    ring
  rw [compute_index_getElem A n _ _ h0, compute_index_getElem A n _ _ hlast]
  rw [e1, e2, ha, hb]

/-- C1: the round-trip law — for every `n ≥ 2` and every range whose
mapped endpoints differ, the sequence
`compute_index(n, scale_and_translation((start, end), n))` has `start`
at index `0` and `end` at index `n - 1` (exactly, in the exact-arithmetic
model), for the linear policy and for the log policy on its domain of
positive endpoints. -/
theorem compute_index_roundtrip :
    (∀ (n : ℕ) (a b : ℚ), 2 ≤ n →
      (LinearAxis.ops ℚ).mapper b ≠ (LinearAxis.ops ℚ).mapper a →
      ((LinearAxis.ops ℚ).scale_and_translation (a, b) n).map
          (fun st => (((LinearAxis.ops ℚ).compute_index n st)[0]?,
            ((LinearAxis.ops ℚ).compute_index n st)[n - 1]?)) =
        some (some a, some b)) ∧
    (∀ (n : ℕ) (a b : ℝ), 2 ≤ n → 0 < a → 0 < b →
      LogAxis.ops.mapper b ≠ LogAxis.ops.mapper a →
      (LogAxis.ops.scale_and_translation (a, b) n).map
          (fun st => ((LogAxis.ops.compute_index n st)[0]?,
            (LogAxis.ops.compute_index n st)[n - 1]?)) =
        some (some a, some b)) := by
  constructor
  · intro n a b hn hne
    exact roundtrip_of_inverse (LinearAxis.ops ℚ) n a b hn hne rfl rfl
  · intro n a b hn hpa hpb hne
    refine roundtrip_of_inverse LogAxis.ops n a b hn hne ?_ ?_
    · show LogAxis.inverse_mapper (LogAxis.mapper a) = a
      unfold LogAxis.inverse_mapper LogAxis.mapper
      exact Real.rpow_logb (by norm_num) (by norm_num) hpa
    · show LogAxis.inverse_mapper (LogAxis.mapper b) = b
      unfold LogAxis.inverse_mapper LogAxis.mapper
      exact Real.rpow_logb (by norm_num) (by norm_num) hpb

theorem compute_index_roundtrip_witness :
    (2 ≤ 10 ∧ (LinearAxis.ops ℚ).mapper (9 : ℚ) ≠ (LinearAxis.ops ℚ).mapper 0) ∧
    ((LinearAxis.ops ℚ).scale_and_translation (0, 9) 10).map
        (fun st => (((LinearAxis.ops ℚ).compute_index 10 st)[0]?,
          ((LinearAxis.ops ℚ).compute_index 10 st)[10 - 1]?)) =
      some (some 0, some 9) :=
  ⟨⟨by decide, by decide⟩, compute_index_roundtrip.1 10 0 9 (by decide) (by decide)⟩

/-- C6: a non-tabular source makes `bypixel` fail with the
`"source must be tabular"` `ValueError`, before any dispatch occurs: the
result is the same error for every pipeline, glyph and summary. -/
theorem bypixel_not_tabular {Source DShape Schema E R : Type}
    (discover : Source → DShape) (istabular : DShape → Bool)
    (measure : DShape → Schema)
    (pipeline : Source → Schema → Canvas → Glyph Schema E → Summary Schema E → R)
    (source : Source) (canvas : Canvas)
    (glyph : Glyph Schema E) (summary : Summary Schema E)
    (h : istabular (discover source) = false) :
    bypixel discover istabular measure pipeline source canvas glyph summary =
      Except.error (PyErr.valueError ("source must be tabular")) ∧
    ∀ (pipeline2 : Source → Schema → Canvas → Glyph Schema E → Summary Schema E → R)
      (glyph2 : Glyph Schema E) (summary2 : Summary Schema E),
      bypixel discover istabular measure pipeline2 source canvas glyph2 summary2 =
        Except.error (PyErr.valueError ("source must be tabular")) := by
  constructor
  · simp [bypixel, h]
  · intro pipeline2 glyph2 summary2
    simp [bypixel, h]

theorem bypixel_not_tabular_witness :
    istabularFalse (discoverU ()) = false ∧
    bypixel discoverU istabularFalse measureU constPipeline () unitCanvas badGlyph okSummary =
      Except.error (PyErr.valueError ("source must be tabular")) :=
  ⟨rfl, (bypixel_not_tabular discoverU istabularFalse measureU constPipeline ()
      unitCanvas badGlyph okSummary rfl).1⟩

/-- C5: `bypixel` validates the glyph against the schema, then the
summary, and only dispatches when both succeed.  A glyph validation
failure is propagated as the result and the pipeline is never invoked
(the result does not depend on the pipeline); a summary failure after a
successful glyph validation is likewise propagated; when both succeed,
the dispatched pipeline's value is returned. -/
theorem bypixel_validation_gate {Source DShape Schema E R : Type}
    (discover : Source → DShape) (istabular : DShape → Bool)
    (measure : DShape → Schema)
    (pipeline : Source → Schema → Canvas → Glyph Schema E → Summary Schema E → R)
    (source : Source) (canvas : Canvas)
    (glyph : Glyph Schema E) (summary : Summary Schema E)
    (ht : istabular (discover source) = true) :
    (∀ e, glyph.validate (measure (discover source)) = Except.error e →
      bypixel discover istabular measure pipeline source canvas glyph summary =
        Except.error (PyErr.validationError e) ∧
      ∀ pipeline2 : Source → Schema → Canvas → Glyph Schema E → Summary Schema E → R,
        bypixel discover istabular measure pipeline source canvas glyph summary =
          bypixel discover istabular measure pipeline2 source canvas glyph summary) ∧
    (∀ e, glyph.validate (measure (discover source)) = Except.ok () →
      summary.validate (measure (discover source)) = Except.error e →
      bypixel discover istabular measure pipeline source canvas glyph summary =
        Except.error (PyErr.validationError e)) ∧
    (glyph.validate (measure (discover source)) = Except.ok () →
      summary.validate (measure (discover source)) = Except.ok () →
      bypixel discover istabular measure pipeline source canvas glyph summary =
        Except.ok (pipeline source (measure (discover source)) canvas glyph summary)) := by
  refine ⟨fun e he => ⟨?_, fun pipeline2 => ?_⟩, fun e hg hsv => ?_, fun hg hsv => ?_⟩ <;>
    simp [bypixel, ht, *]

theorem bypixel_validation_gate_witness :
    istabularTrue (discoverU ()) = true ∧
    badGlyph.validate (measureU (discoverU ())) = Except.error ("glyph requires column x") ∧
    bypixel discoverU istabularTrue measureU constPipeline () unitCanvas badGlyph okSummary =
      Except.error (PyErr.validationError ("glyph requires column x")) :=
  ⟨rfl, rfl,
    ((bypixel_validation_gate discoverU istabularTrue measureU constPipeline ()
        unitCanvas badGlyph okSummary rfl).1 ("glyph requires column x") rfl).1⟩
